import Mathlib

/-!
Shallow embedding of the GPU picking module
(src/crates/bevy_render/src/picking/mod.rs) and proofs about it.

Machine integers (u32/usize/u64) are modelled as Nat; the quantities involved
(pixel coordinates, byte offsets, buffer sizes) never approach the wrap-around
points of the source's 64-bit arithmetic for the sizes considered, and u32
saturating subtraction is exactly Nat subtraction.  GPU buffers are modelled as
lists of byte values; a Rust slice-indexing or expect/assert failure is
modelled by the explicit `Outcome.panicked` value.
-/

/-- Physical pixel coordinates and sizes: bevy_math's UVec2 (two u32 fields,
modelled as Nat). -/
structure UVec2 where
  x : Nat
  y : Nat
deriving DecidableEq

/-- Block size in bytes of PICKING_TEXTURE_FORMAT = Rgba16Float: four channels
of 16 bits each, so `PICKING_TEXTURE_FORMAT.describe().block_size = 8`. -/
def pickingBlockSize : Nat := 8

/-- wgpu's COPY_BYTES_PER_ROW_ALIGNMENT constant: 256. -/
def copyBytesPerRowAlignment : Nat := 256

/-- Wrapper around the rendered size; the buffer may be larger due to padding
(struct PickingBufferSize, lines 181-185). -/
structure PickingBufferSize where
  texture_size : UVec2
  padded_bytes_per_row : Nat
deriving DecidableEq

/-- PickingBufferSize::new (lines 188-205): pads the tightly packed row of
`width * block_size` bytes up to the copy row alignment. -/
def PickingBufferSize.new (width height : Nat) : PickingBufferSize :=
  let bytes_per_pixel := pickingBlockSize
  let unpadded_bytes_per_row := width * bytes_per_pixel
  let align := copyBytesPerRowAlignment
  let padded_bytes_per_row_padding := (align - unpadded_bytes_per_row % align) % align
  let padded_bytes_per_row := unpadded_bytes_per_row + padded_bytes_per_row_padding
  { texture_size := ⟨width, height⟩, padded_bytes_per_row := padded_bytes_per_row }

/-- PickingBufferSize::total_needed_bytes (lines 207-209):
`texture_size.y * padded_bytes_per_row`. -/
def PickingBufferSize.total_needed_bytes (s : PickingBufferSize) : Nat :=
  s.texture_size.y * s.padded_bytes_per_row

/-- A GPU buffer, reduced to what the picking code observes of it: its byte
size (Buffer::size()) and an allocation identity distinguishing distinct
create_buffer calls. -/
structure Buffer where
  size : Nat
  id : Nat
deriving DecidableEq

/-- struct PickingResources (lines 93-104): the entity-index buffer, the depth
buffer, and the buffer-size bookkeeping. -/
structure PickingResources where
  pick_buffer : Buffer
  depth_buffer : Buffer
  size : PickingBufferSize
deriving DecidableEq

/-- Result of running a piece of Rust code that can panic: either a normal
return value or a panic (from expect, a failed assertion, or out-of-range
slice indexing). -/
inductive Outcome (α : Type) where
  | panicked : Outcome α
  | ret : α → Outcome α
deriving DecidableEq

/-- The vertical-axis flip in coords_to_data (line 294):
`(camera_size.y as usize).saturating_sub(coords.y as usize)`.  On Nat,
saturating subtraction is ordinary subtraction. -/
def flip_row (camera_height coord_y : Nat) : Nat :=
  camera_height - coord_y

/-- Byte offset computed by coords_to_data (line 304):
`start = y * padded_width + x * pixel_size` with `y` the flipped row. -/
def pick_offset (coords camera_size : UVec2) (picking_buffer_size : PickingBufferSize) : Nat :=
  flip_row camera_size.y coords.y * picking_buffer_size.padded_bytes_per_row
    + coords.x * pickingBlockSize

/-- coords_to_data (lines 274-313).  `camera_size` is
camera.physical_target_size(), whose absence makes the expect on line 286
panic.  The slice indexing `buffer_view[start..end]` on line 310 panics when
`end` exceeds the mapped buffer's length; otherwise the extracted bytes are fed
to the caller-supplied closure. -/
def coords_to_data {α : Type} (coords : UVec2) (camera_size : Option UVec2)
    (picking_buffer_size : PickingBufferSize) (buffer_view : List Nat)
    (make_data_from_viewed_bytes : List Nat → Outcome α) : Outcome α :=
  match camera_size with
  | none => Outcome.panicked
  | some cs =>
    let start := pick_offset coords cs picking_buffer_size
    let stop := start + pickingBlockSize
    if stop ≤ buffer_view.length then
      make_data_from_viewed_bytes ((buffer_view.drop start).take pickingBlockSize)
    else
      Outcome.panicked

/-- Value of the half-precision float with the given 16 bit pattern, converted
to f32 and cast to u16 with Rust `as` semantics (truncate toward zero,
saturate to [0, 65535], NaN to 0).  Used by the closure in get_entity
(lines 133-136). -/
def f16_value_as_u16 (bits : Nat) : Nat :=
  let s := bits / 32768 % 2
  let e := bits / 1024 % 32
  let m := bits % 1024
  if s = 1 then 0
  else if e = 31 then (if m = 0 then 65535 else 0)
  else if e = 0 then 0
  else min 65535 ((1024 + m) * 2 ^ e / 33554432)

/-- The `f16_to_u16` helper closed over in get_entity (lines 133-136): read a
little-endian 16-bit pattern at byte index `start` and take its half-precision
value as a u16. -/
def f16_to_u16 (bytes : List Nat) (start : Nat) : Nat :=
  f16_value_as_u16 (bytes.getD start 0 + 256 * bytes.getD (start + 1) 0)

/-- Reassembly of the virtual entity index from the three channel values in
get_entity (line 142):
`u16_lower_8 | (u16_mid_12 << 8) | (u16_upper_12 << 20)`. -/
def decode_channels (u16_lower_8 u16_mid_12 u16_upper_12 : Nat) : Nat :=
  u16_lower_8 ||| (u16_mid_12 <<< 8) ||| (u16_upper_12 <<< 20)

/-- The decode closure passed by get_entity (lines 130-143): asserts the viewed
byte range is exactly 4 channels of 2 bytes, then reassembles the virtual
entity index from the three low channels. -/
def entity_from_bytes (bytes : List Nat) : Outcome Nat :=
  if bytes.length = 4 * 2 then
    Outcome.ret
      (decode_channels (f16_to_u16 bytes 0) (f16_to_u16 bytes 2) (f16_to_u16 bytes 4))
  else
    Outcome.panicked

/-- The decode closure passed by Picking::depth (lines 168-174):
`f32::from_le_bytes(bytes.try_into().expect(..))`.  The conversion of the
byte slice into a 4-byte array fails (and the expect panics) unless the slice
length is exactly 4; on success we model the f32 by its little-endian 32-bit
pattern. -/
def depth_from_bytes (bytes : List Nat) : Outcome Nat :=
  if bytes.length = 4 then
    Outcome.ret
      (bytes.getD 0 0 + 256 * bytes.getD 1 0 + 65536 * bytes.getD 2 0
        + 16777216 * bytes.getD 3 0)
  else
    Outcome.panicked

/-- The virtual-entity-index handling at the end of get_entity (lines
146-151): index 0 means no entity, otherwise the entity has raw index one
less than the virtual index. -/
def decode_virtual (virtual_entity_index : Nat) : Option Nat :=
  if virtual_entity_index = 0 then none else some (virtual_entity_index - 1)

/-- Picking::get_entity (lines 116-152).  `resources` is the contents of the
locked Option; when it is none the function returns None early (lines
118-121).  `mapped_pick_bytes` models the mapped range of the pick buffer. -/
def Picking.get_entity (resources : Option PickingResources)
    (mapped_pick_bytes : List Nat) (camera_size : Option UVec2)
    (coordinates : UVec2) : Outcome (Option Nat) :=
  match resources with
  | none => Outcome.ret none
  | some r =>
    match coords_to_data coordinates camera_size r.size mapped_pick_bytes
        entity_from_bytes with
    | Outcome.panicked => Outcome.panicked
    | Outcome.ret v => Outcome.ret (decode_virtual v)

/-- Picking::depth (lines 157-178).  When the resources are not yet prepared
the expect on line 159 panics; otherwise the same coords_to_data is run
against the mapped depth buffer with the f32 decode closure. -/
def Picking.depth (resources : Option PickingResources)
    (mapped_depth_bytes : List Nat) (camera_size : Option UVec2)
    (coordinates : UVec2) : Outcome Nat :=
  match resources with
  | none => Outcome.panicked
  | some r =>
    coords_to_data coordinates camera_size r.size mapped_depth_bytes
      depth_from_bytes

/-- Modelled from the spec: the encode side of the identifier codec lives in
the shader picking.wgsl, which is not under src.  The image-encoded form of an
object id is the id plus one (the virtual index), so that zero can mean "no
object". -/
def encode_virtual (id : Nat) : Nat := id + 1

/-- Modelled from the spec: the shader-side channel split of the virtual index
(picking.wgsl, not under src), matching the reassembly shifts used by the
decode in get_entity: 8 low bits in the first channel, 12 bits in the second,
12 bits in the third.  Per the spec each channel payload is an integer stored
exactly in the floating-point channel, so channels are modelled by their
integer values. -/
def encode_entity_channels (id : Nat) : Nat × Nat × Nat :=
  let v := encode_virtual id
  (v % 256, v / 256 % 4096, v / 1048576 % 4096)

/-- The per-camera buffer-management step of prepare_picking_targets (lines
388-429).  `fresh_pick` and `fresh_depth` are the allocation identities the
two make_buffer() calls would produce; `existing` is the contents of the
camera's locked Option<PickingResources>; `target_size` is the camera's
physical target size.  Matching resources are kept as they are; otherwise both
buffers are newly created with the needed byte size and the size bookkeeping
is rebuilt from the target size. -/
def prepare_picking_resources (fresh_pick fresh_depth : Nat)
    (existing : Option PickingResources) (target_size : UVec2) : PickingResources :=
  let picking_buffer_dimensions := PickingBufferSize.new target_size.x target_size.y
  let needed_buffer_size := picking_buffer_dimensions.total_needed_bytes
  let make_pick_buffer : Buffer := { size := needed_buffer_size, id := fresh_pick }
  let make_depth_buffer : Buffer := { size := needed_buffer_size, id := fresh_depth }
  match existing with
  | some pr =>
    if pr.pick_buffer.size ≠ needed_buffer_size
        ∨ pr.depth_buffer.size ≠ needed_buffer_size
        ∨ pr.size.texture_size ≠ target_size then
      { pick_buffer := make_pick_buffer, depth_buffer := make_depth_buffer,
        size := picking_buffer_dimensions }
    else pr
  | none =>
    { pick_buffer := make_pick_buffer, depth_buffer := make_depth_buffer,
      size := picking_buffer_dimensions }

/-- A PickingResources whose size bookkeeping is derived from its own stored
texture size by PickingBufferSize::new; every value the program ever stores in
the field has this shape. -/
def PickingResources.wellFormed (pr : PickingResources) : Prop :=
  pr.size = PickingBufferSize.new pr.size.texture_size.x pr.size.texture_size.y

theorem lor_shiftLeft_eq_add (a b k : Nat) (ha : a < 2 ^ k) :
    a ||| (b <<< k) = b * 2 ^ k + a := by
  apply Nat.eq_of_testBit_eq
  intro i
  rw [Nat.testBit_lor, Nat.testBit_shiftLeft]
  rw [show b * 2 ^ k + a = 2 ^ k * b + a by ring]
  rw [Nat.testBit_mul_pow_two_add b ha i]
  by_cases hik : i < k
  · simp [hik, Nat.not_le.mpr hik]
  · have hki : k ≤ i := Nat.not_lt.mp hik
    have hz : a.testBit i = false :=
      Nat.testBit_lt_two_pow
        (lt_of_lt_of_le ha (Nat.pow_le_pow_right (by norm_num) hki))
    simp [hki, Nat.not_lt.mpr hki, hz]

set_option maxRecDepth 10000 in
/-- C1: the claim says a query at the last valid pixels (W-1, 0) and (0, H-1)
computes a byte offset strictly below total_bytes, and an out-of-bounds pixel
is rejected before any offset arithmetic.  The code does neither: for a 1x1
viewport the last valid pixel (0, 0) is flipped to row 1, giving offset
256 = total_needed_bytes, so the slice indexing panics; and the out-of-bounds
pixel (0, 1) is not rejected — it is flipped to row 0 and the buffer is read,
returning a normal answer. -/
theorem last_valid_pixel_offset_reaches_total_bytes :
    pick_offset ⟨0, 0⟩ ⟨1, 1⟩ (PickingBufferSize.new 1 1) = 256
    ∧ (PickingBufferSize.new 1 1).total_needed_bytes = 256
    ∧ Picking.get_entity (some ⟨⟨256, 0⟩, ⟨256, 1⟩, PickingBufferSize.new 1 1⟩)
        (List.replicate 256 0) (some ⟨1, 1⟩) ⟨0, 0⟩ = Outcome.panicked
    ∧ Picking.get_entity (some ⟨⟨256, 0⟩, ⟨256, 1⟩, PickingBufferSize.new 1 1⟩)
        (List.replicate 256 0) (some ⟨1, 1⟩) ⟨0, 1⟩ = Outcome.ret none := by
  refine ⟨rfl, rfl, ?_, ?_⟩ <;> decide

/-- C2: the claim says the vertical flip sends pixel (x, 0) to buffer row H-1
and pixel (x, H-1) to buffer row 0.  The code computes row = H - y
(saturating), so for H = 2 pixel y = 0 goes to row 2 (one past the last row,
not row 1) and pixel y = H-1 = 1 goes to row 1, not row 0. -/
theorem vertical_flip_misses_top_row :
    flip_row 2 0 = 2 ∧ flip_row 2 0 ≠ 2 - 1
    ∧ flip_row 2 (2 - 1) = 1 ∧ flip_row 2 (2 - 1) ≠ 0 := by
  decide

/-- C3: the claim says the depth query does the same coordinate arithmetic as
the entity query and returns the 32-bit little-endian float at the pixel.  The
shared coords_to_data always hands the closure pickingBlockSize = 8 bytes (the
Rgba16Float block size), but f32::from_le_bytes needs exactly 4, so the
try_into's expect fires: the depth query panics on every input, for any
resources, mapped bytes, camera size and coordinates. -/
theorem depth_query_always_panics (resources : Option PickingResources)
    (mapped_depth_bytes : List Nat) (camera_size : Option UVec2)
    (coordinates : UVec2) :
    Picking.depth resources mapped_depth_bytes camera_size coordinates
      = Outcome.panicked := by
  cases resources with
  | none => rfl
  | some r =>
    cases camera_size with
    | none => rfl
    | some cs =>
      simp only [Picking.depth, coords_to_data]
      split
      · next h =>
        have hdl : pickingBlockSize
            ≤ (mapped_depth_bytes.drop (pick_offset coordinates cs r.size)).length := by
          rw [List.length_drop]
          omega
        have hlen :
            ((mapped_depth_bytes.drop
                (pick_offset coordinates cs r.size)).take pickingBlockSize).length
              = pickingBlockSize :=
          List.length_take_of_le hdl
        unfold depth_from_bytes
        rw [if_neg (by rw [hlen]; decide)]
      · rfl

/-- C4: PickingBufferSize::new computes the padded row stride by the
alignment formula padding = (align - unpadded % align) % align with
unpadded = width * 8 and align = 256, and total_needed_bytes is
height * row stride; for width 301 and height 200 this gives unpadded row
2408, padding 152, stride 2560 and 512000 total bytes. -/
theorem picking_buffer_size_formula_and_scenario (w h : Nat) :
    (PickingBufferSize.new w h).padded_bytes_per_row
        = w * 8 + (256 - w * 8 % 256) % 256
    ∧ (PickingBufferSize.new w h).total_needed_bytes
        = h * (PickingBufferSize.new w h).padded_bytes_per_row
    ∧ 301 * 8 = 2408
    ∧ (256 - 2408 % 256) % 256 = 152
    ∧ (PickingBufferSize.new 301 200).padded_bytes_per_row = 2560
    ∧ (PickingBufferSize.new 301 200).total_needed_bytes = 512000 :=
  ⟨rfl, rfl, by decide, by decide, by decide, by decide⟩

/-- C5: decoding the pixel produced by encoding an object id returns that id
for every id whose virtual index fits in 32 bits, and decoding the all-zero
pixel returns the "no object" sentinel none. -/
theorem codec_round_trip (id : Nat) (h : id + 1 < 4294967296) :
    decode_virtual
        (decode_channels (encode_entity_channels id).1
          (encode_entity_channels id).2.1 (encode_entity_channels id).2.2)
      = some id
    ∧ decode_virtual (decode_channels 0 0 0) = none := by
  constructor
  · have hchan :
        decode_channels (encode_entity_channels id).1
          (encode_entity_channels id).2.1 (encode_entity_channels id).2.2
        = ((id + 1) % 256) ||| (((id + 1) / 256 % 4096) <<< 8)
            ||| (((id + 1) / 1048576 % 4096) <<< 20) := rfl
    rw [hchan]
    rw [lor_shiftLeft_eq_add ((id + 1) % 256) ((id + 1) / 256 % 4096) 8 (by omega)]
    rw [lor_shiftLeft_eq_add _ ((id + 1) / 1048576 % 4096) 20 (by omega)]
    have h8 : (2 : Nat) ^ 8 = 256 := by norm_num
    have h20 : (2 : Nat) ^ 20 = 1048576 := by norm_num
    rw [h8, h20]
    have hv : (id + 1) / 1048576 % 4096 * 1048576
        + ((id + 1) / 256 % 4096 * 256 + (id + 1) % 256) = id + 1 := by omega
    rw [hv]
    unfold decode_virtual
    rw [if_neg (by omega)]
    simp
  · rfl

theorem codec_round_trip_witness :
    5 + 1 < 4294967296
    ∧ decode_virtual
        (decode_channels (encode_entity_channels 5).1
          (encode_entity_channels 5).2.1 (encode_entity_channels 5).2.2)
      = some 5 :=
  ⟨by decide, (codec_round_trip 5 (by decide)).1⟩

/-- C6: the claim says both queries uniformly report "not ready" without
panicking when resources are not yet prepared.  In the code get_entity
returns None but depth panics through its expect, so the two queries disagree
in the unready case. -/
theorem unready_entity_and_depth_asymmetric (pick_bytes depth_bytes : List Nat)
    (camera_size : Option UVec2) (coordinates : UVec2) :
    Picking.get_entity none pick_bytes camera_size coordinates = Outcome.ret none
    ∧ Picking.depth none depth_bytes camera_size coordinates = Outcome.panicked :=
  ⟨rfl, rfl⟩

/-- C7: for positive width and height the padded row stride is at least the
tightly packed row width * 8, is divisible by the alignment 256, the total
byte count is height times the stride, and the stride is non-decreasing in the
width. -/
theorem picking_layout_invariants (w h : Nat) (hw : 0 < w) (hh : 0 < h) :
    w * 8 ≤ (PickingBufferSize.new w h).padded_bytes_per_row
    ∧ (PickingBufferSize.new w h).padded_bytes_per_row % 256 = 0
    ∧ (PickingBufferSize.new w h).total_needed_bytes
        = h * (PickingBufferSize.new w h).padded_bytes_per_row
    ∧ ∀ w2, w ≤ w2 →
        (PickingBufferSize.new w h).padded_bytes_per_row
          ≤ (PickingBufferSize.new w2 h).padded_bytes_per_row := by
  refine ⟨?_, ?_, rfl, fun w2 hle => ?_⟩
  · simp only [PickingBufferSize.new, pickingBlockSize, copyBytesPerRowAlignment]
    omega
  · simp only [PickingBufferSize.new, pickingBlockSize, copyBytesPerRowAlignment]
    omega
  · simp only [PickingBufferSize.new, pickingBlockSize, copyBytesPerRowAlignment]
    omega

theorem picking_layout_invariants_witness :
    (PickingBufferSize.new 301 200).padded_bytes_per_row % 256 = 0 :=
  (picking_layout_invariants 301 200 (by decide) (by decide)).2.1

/-- C8: decoding inverts the +1 virtual-index offset: virtual index 0 decodes
to none, a positive virtual index v decodes to the id v - 1, encoding object
id 5 produces virtual index 6, and decoding virtual index 6 returns id 5. -/
theorem virtual_index_decode_inverts_offset (v : Nat) (hv : 0 < v) :
    decode_virtual 0 = none
    ∧ decode_virtual v = some (v - 1)
    ∧ encode_virtual 5 = 6
    ∧ decode_virtual 6 = some 5 := by
  refine ⟨rfl, ?_, rfl, rfl⟩
  unfold decode_virtual
  rw [if_neg (by omega)]

theorem virtual_index_decode_inverts_offset_witness :
    0 < 6 ∧ decode_virtual 6 = some 5 :=
  ⟨by decide, (virtual_index_decode_inverts_offset 6 (by decide)).2.2.2⟩

/-- C9: resource preparation is idempotent exactly when the existing resources
match the required layout: the prepared resources equal the existing ones iff
both buffer sizes equal the needed byte count and the stored texture size
equals the target size; otherwise both buffers are replaced by newly allocated
ones of the needed size and the size bookkeeping is rebuilt from the new
target size.  The freshness hypothesis records that make_buffer returns a new
allocation, never the old one. -/
theorem prepare_picking_idempotent_iff (pr : PickingResources)
    (target_size : UVec2) (f1 f2 : Nat) (hf1 : f1 ≠ pr.pick_buffer.id) :
    (prepare_picking_resources f1 f2 (some pr) target_size = pr ↔
      pr.pick_buffer.size
          = (PickingBufferSize.new target_size.x target_size.y).total_needed_bytes
      ∧ pr.depth_buffer.size
          = (PickingBufferSize.new target_size.x target_size.y).total_needed_bytes
      ∧ pr.size.texture_size = target_size)
    ∧ (¬(pr.pick_buffer.size
          = (PickingBufferSize.new target_size.x target_size.y).total_needed_bytes
        ∧ pr.depth_buffer.size
          = (PickingBufferSize.new target_size.x target_size.y).total_needed_bytes
        ∧ pr.size.texture_size = target_size) →
      (prepare_picking_resources f1 f2 (some pr) target_size).pick_buffer
          = ⟨(PickingBufferSize.new target_size.x target_size.y).total_needed_bytes, f1⟩
      ∧ (prepare_picking_resources f1 f2 (some pr) target_size).depth_buffer
          = ⟨(PickingBufferSize.new target_size.x target_size.y).total_needed_bytes, f2⟩
      ∧ (prepare_picking_resources f1 f2 (some pr) target_size).size
          = PickingBufferSize.new target_size.x target_size.y) := by
  have hp : prepare_picking_resources f1 f2 (some pr) target_size
      = if pr.pick_buffer.size
            ≠ (PickingBufferSize.new target_size.x target_size.y).total_needed_bytes
          ∨ pr.depth_buffer.size
            ≠ (PickingBufferSize.new target_size.x target_size.y).total_needed_bytes
          ∨ pr.size.texture_size ≠ target_size then
          { pick_buffer :=
              ⟨(PickingBufferSize.new target_size.x target_size.y).total_needed_bytes, f1⟩,
            depth_buffer :=
              ⟨(PickingBufferSize.new target_size.x target_size.y).total_needed_bytes, f2⟩,
            size := PickingBufferSize.new target_size.x target_size.y }
        else pr := rfl
  by_cases hM : pr.pick_buffer.size
        = (PickingBufferSize.new target_size.x target_size.y).total_needed_bytes
      ∧ pr.depth_buffer.size
        = (PickingBufferSize.new target_size.x target_size.y).total_needed_bytes
      ∧ pr.size.texture_size = target_size
  · have hD : ¬(pr.pick_buffer.size
          ≠ (PickingBufferSize.new target_size.x target_size.y).total_needed_bytes
        ∨ pr.depth_buffer.size
          ≠ (PickingBufferSize.new target_size.x target_size.y).total_needed_bytes
        ∨ pr.size.texture_size ≠ target_size) := by
      push_neg
      exact hM
    rw [hp, if_neg hD]
    exact ⟨⟨fun _ => hM, fun _ => rfl⟩, fun hn => absurd hM hn⟩
  · have hD : pr.pick_buffer.size
          ≠ (PickingBufferSize.new target_size.x target_size.y).total_needed_bytes
        ∨ pr.depth_buffer.size
          ≠ (PickingBufferSize.new target_size.x target_size.y).total_needed_bytes
        ∨ pr.size.texture_size ≠ target_size := by
      tauto
    rw [hp, if_pos hD]
    refine ⟨⟨fun hEq => ?_, fun hM2 => absurd hM2 hM⟩, fun _ => ⟨rfl, rfl, rfl⟩⟩
    exact absurd (congrArg (fun r => r.pick_buffer.id) hEq) hf1

theorem prepare_picking_idempotent_iff_witness :
    prepare_picking_resources 10 11
        (some ⟨⟨512000, 0⟩, ⟨512000, 1⟩, PickingBufferSize.new 301 200⟩) ⟨301, 200⟩
      = ⟨⟨512000, 0⟩, ⟨512000, 1⟩, PickingBufferSize.new 301 200⟩ :=
  (prepare_picking_idempotent_iff
      ⟨⟨512000, 0⟩, ⟨512000, 1⟩, PickingBufferSize.new 301 200⟩ ⟨301, 200⟩ 10 11
      (by decide)).1.mpr ⟨by decide, by decide, by decide⟩

/-- C10: after the preparation step runs for a camera with a known target
size, the resulting resources satisfy the size invariant: both buffers have
exactly the stored layout's total needed byte count, and the stored texture
size equals the target size.  This holds whether the resources are freshly
created, recreated after a mismatch, or kept unchanged, provided any
pre-existing resources have well-formed bookkeeping (which the preparation
step itself always establishes, as the last conjunct shows). -/
theorem prepare_establishes_size_invariant (existing : Option PickingResources)
    (target_size : UVec2) (f1 f2 : Nat)
    (hwf : ∀ pr, existing = some pr → pr.wellFormed) :
    (prepare_picking_resources f1 f2 existing target_size).pick_buffer.size
        = (prepare_picking_resources f1 f2 existing target_size).size.total_needed_bytes
    ∧ (prepare_picking_resources f1 f2 existing target_size).depth_buffer.size
        = (prepare_picking_resources f1 f2 existing target_size).size.total_needed_bytes
    ∧ (prepare_picking_resources f1 f2 existing target_size).size.texture_size
        = target_size
    ∧ (prepare_picking_resources f1 f2 existing target_size).wellFormed := by
  cases existing with
  | none => exact ⟨rfl, rfl, rfl, rfl⟩
  | some pr =>
    have hp : prepare_picking_resources f1 f2 (some pr) target_size
        = if pr.pick_buffer.size
              ≠ (PickingBufferSize.new target_size.x target_size.y).total_needed_bytes
            ∨ pr.depth_buffer.size
              ≠ (PickingBufferSize.new target_size.x target_size.y).total_needed_bytes
            ∨ pr.size.texture_size ≠ target_size then
            { pick_buffer :=
                ⟨(PickingBufferSize.new target_size.x target_size.y).total_needed_bytes, f1⟩,
              depth_buffer :=
                ⟨(PickingBufferSize.new target_size.x target_size.y).total_needed_bytes, f2⟩,
              size := PickingBufferSize.new target_size.x target_size.y }
          else pr := rfl
    rw [hp]
    split
    · exact ⟨rfl, rfl, rfl, rfl⟩
    · next hD =>
      push_neg at hD
      obtain ⟨ha, hb, hc⟩ := hD
      have hwfpr : pr.wellFormed := hwf pr rfl
      have hsz : pr.size = PickingBufferSize.new target_size.x target_size.y := by
        rw [hwfpr, hc]
      refine ⟨?_, ?_, hc, ?_⟩
      · rw [ha, hsz]
      · rw [hb, hsz]
      · unfold PickingResources.wellFormed
        rw [hsz]
        rfl

theorem prepare_establishes_size_invariant_witness :
    (prepare_picking_resources 0 1 none ⟨301, 200⟩).pick_buffer.size
      = (prepare_picking_resources 0 1 none ⟨301, 200⟩).size.total_needed_bytes :=
  (prepare_establishes_size_invariant none ⟨301, 200⟩ 0 1 (fun _ h => nomatch h)).1
